import Mathlib

/-!
Verification development for the AI visibility checker's analysis route.
The route validates a requested URL, fetches the page, parses it, runs ten
criterion evaluators over the parsed document, and aggregates the scores,
recommendations and static research insights into an `AnalysisResult`.

JavaScript strings are modelled as Lean `String`; `String.prototype.includes`
is modelled by a structural substring test (`strIncludes`); JS numeric
arithmetic on scores is `Nat` (all score updates add non-negative integer
constants); the fractional readability arithmetic is modelled exactly over ℚ.
The percentage computation `(totalScore / 100) * 100` runs in IEEE-754
binary64 arithmetic in the program and is modelled bit-exactly (`jsPercent`):
each of the two operations rounds its exact rational result to the nearest
53-bit-significand value, ties to even.
Division by zero in JS yields NaN/Infinity, on which every `<=`/`<`/`>`
comparison is false; the affected spots carry explicit zero-denominator
branches that take the corresponding else branch, mirroring that semantics.
-/

/-- charsStart pat hay: pat is a prefix of hay (JS String startsWith on char lists). -/
def charsStart : List Char → List Char → Bool
  | [], _ => true
  | _ :: _, [] => false
  | p :: ps, h :: hs => p == h && charsStart ps hs

/-- charsHave pat hay: pat occurs as a contiguous substring of hay. -/
def charsHave (pat : List Char) : List Char → Bool
  | [] => pat.isEmpty
  | c :: t => charsStart pat (c :: t) || charsHave pat t

/-- Model of JS `hay.includes(pat)`. -/
def strIncludes (hay pat : String) : Bool :=
  charsHave pat.data hay.data

/-- Model of JS `s.startsWith(pat)` (used for the `a[href^='http']` selector). -/
def strStarts (s pat : String) : Bool :=
  charsStart pat.data s.data

/-- Split a character list at every character satisfying p (keeping empty chunks),
modelling JS `split` against a single-character-class regex. -/
def splitOnPred (p : Char → Bool) : List Char → List (List Char)
  | [] => [[]]
  | c :: t =>
    if p c then [] :: splitOnPred p t
    else
      match splitOnPred p t with
      | [] => [[c]]
      | w :: ws => (c :: w) :: ws

/-- The non-empty whitespace-separated chunks of the text: JS
`text.trim().split(/\s+/).filter((word) => word.length > 0)`. -/
def wordsOf (text : String) : List (List Char) :=
  (splitOnPred (fun c => c.isWhitespace) text.data).filter (fun w => w.length > 0)

/-- Source helper `countWords`. -/
def countWords (text : String) : Nat :=
  (wordsOf text).length

/-- The sentence chunks: JS
`text.split(/[.!?]+/).filter((sentence) => sentence.trim().length > 0)`.
A chunk survives the trim-filter exactly when it has a non-whitespace char;
splitting on the character class one character at a time only adds empty
chunks relative to the `+`-greedy regex split, which the filter removes. -/
def sentencesOf (text : String) : List (List Char) :=
  (splitOnPred (fun c => c == '.' || c == '!' || c == '?') text.data).filter
    (fun s => s.any (fun c => !c.isWhitespace))

/-- Source helper `calculateReadability` (simplified Flesch-Kincaid),
with the float constants and divisions carried exactly over ℚ. -/
def calculateReadability (text : String) : ℚ :=
  let words := wordsOf text
  let sentences := sentencesOf text
  if sentences.length = 0 ∨ words.length = 0 then 0
  else
    let avgWordsPerSentence : ℚ := (words.length : ℚ) / (sentences.length : ℚ)
    let longWords := (words.filter (fun w => w.length > 6)).length
    let percentLongWords : ℚ := ((longWords : ℚ) / (words.length : ℚ)) * 100
    let readabilityScore : ℚ :=
      206835 / 1000 - (1015 / 1000) * avgWordsPerSentence - (846 / 1000) * percentLongWords
    min 100 (max 0 readabilityScore)

/-- One criterion's result (source interface `CriteriaScore`). -/
structure CriteriaScore where
  score : Nat
  max : Nat
  details : List String

/-- The data the route derives from the fetched page before scoring:
`text` is the lowercased body text, `html` the lowercased raw markup,
`plainText` the original-case body text, `rawLength` the raw body length;
`headings`/`lists`/`paragraphs` are the cheerio selector counts;
`title` is the title element's text; `description` is the
`meta[name="description"]` content attribute when present; `publishDate`
is the first truthy of the three date attribute lookups, if any;
`authorFound` records whether any of the author selectors matched;
`anchorHrefs` lists the href values of the anchor elements that have one. -/
structure ParsedDoc where
  headings : Nat
  lists : Nat
  paragraphs : Nat
  rawLength : Nat
  text : String
  html : String
  plainText : String
  title : String
  description : Option String
  publishDate : Option String
  authorFound : Bool
  anchorHrefs : List String

/-- Evaluation-time inputs the route reads from `new Date()`:
the current epoch milliseconds and the current calendar year. -/
structure Clock where
  nowMs : Int
  currentYear : Int

/-- Count how many of the patterns occur in the text:
JS `patterns.filter((p) => text.includes(p)).length`. -/
def countIncluded (text : String) (pats : List String) : Nat :=
  (pats.filter (fun p => strIncludes text p)).length

/-- 1. Structure analysis (10 points). -/
def structureEval (d : ParsedDoc) : CriteriaScore :=
  let tableOfContents := strIncludes d.text "table of contents" || strIncludes d.text "contents"
  { score :=
      (if 3 ≤ d.headings then 3 else 0) + (if 2 ≤ d.lists then 2 else 0) +
        (if 5 ≤ d.paragraphs then 2 else 0) + (if tableOfContents then 2 else 0) +
        (if 2000 < d.rawLength then 1 else 0),
    max := 10,
    details :=
      [if 3 ≤ d.headings then "✓ Good heading structure (3+ headings)"
        else "✗ Limited heading structure",
       if 2 ≤ d.lists then "✓ Contains lists/bullet points"
        else "✗ No lists or bullet points found",
       if 5 ≤ d.paragraphs then "✓ Well-structured paragraphs"
        else "✗ Limited paragraph structure",
       if tableOfContents then "✓ Table of contents present" else "✗ No table of contents",
       if 2000 < d.rawLength then "✓ Substantial content length"
        else "✗ Content appears too short"] }

def authorKeywords : List String := ["written by", "author:", "by ", "published by"]

def bioKeywords : List String := ["bio", "about the author", "profile", "credentials"]

def expertiseKeywords : List String :=
  ["expert", "specialist", "phd", "professor", "researcher", "years of experience"]

/-- 2. Author analysis (8 points). -/
def authorEval (d : ParsedDoc) : CriteriaScore :=
  let hasAuthorKeywords := authorKeywords.any (fun k => strIncludes d.text k)
  let hasBio := bioKeywords.any (fun k => strIncludes d.text k)
  let hasExpertise := expertiseKeywords.any (fun k => strIncludes d.text k)
  { score :=
      (if d.authorFound || hasAuthorKeywords then 4 else 0) + (if hasBio then 2 else 0) +
        (if hasExpertise then 2 else 0),
    max := 8,
    details :=
      [if d.authorFound || hasAuthorKeywords then "✓ Author information present"
        else "✗ No clear author attribution",
       if hasBio then "✓ Author bio/credentials found" else "✗ No author bio or credentials",
       if hasExpertise then "✓ Expertise indicators found" else "✗ No clear expertise indicators"] }

/-- 3. Metadata analysis (8 points); `description` is `attr("content") || ""`
and the JS truthiness test on it is the `≠ ""` conjunct. -/
def metadataEval (d : ParsedDoc) : CriteriaScore :=
  let description := d.description.getD ""
  let hasSchema := strIncludes d.html "schema.org" || strIncludes d.html "application/ld+json"
  { score :=
      (if d.title ≠ "" ∧ 10 < d.title.length then 2 else 0) +
        (if description ≠ "" ∧ 50 < description.length then 3 else 0) +
        (if d.publishDate.isSome then 2 else 0) + (if hasSchema then 1 else 0),
    max := 8,
    details :=
      [if d.title ≠ "" ∧ 10 < d.title.length then "✓ Descriptive title present"
        else "✗ Missing or poor title",
       if description ≠ "" ∧ 50 < description.length then "✓ Good meta description"
        else "✗ Missing or poor meta description",
       if d.publishDate.isSome then "✓ Publication date found" else "✗ No publication date",
       if hasSchema then "✓ Structured data present" else "✗ No structured data"] }

def aiKeywords : List String :=
  ["artificial intelligence", "ai", "machine learning", "chatgpt", "gpt", "openai", "gemini",
   "claude", "llm", "large language model", "deep learning", "neural network", "automation",
   "algorithm"]

def techKeywords : List String :=
  ["technology", "software", "programming", "development", "coding", "data science", "analytics",
   "digital", "innovation", "tech"]

def topicalKeywords : List String :=
  ["how to", "guide", "tutorial", "tips", "best practices", "explained"]

/-- 4. Keywords analysis (8 points). -/
def keywordsEval (d : ParsedDoc) : CriteriaScore :=
  let aiKeywordCount := countIncluded d.text aiKeywords
  let techKeywordCount := countIncluded d.text techKeywords
  let hasTopicalKeywords := topicalKeywords.any (fun k => strIncludes d.text k)
  { score :=
      (if 3 ≤ aiKeywordCount then 4 else if 1 ≤ aiKeywordCount then 2 else 0) +
        (if 3 ≤ techKeywordCount then 2 else 0) + (if hasTopicalKeywords then 2 else 0),
    max := 8,
    details :=
      [if 3 ≤ aiKeywordCount then "✓ Rich AI-related keywords"
        else if 1 ≤ aiKeywordCount then "✓ Some AI-related keywords"
        else "✗ No AI-related keywords",
       if 3 ≤ techKeywordCount then "✓ Technology keywords present"
        else "✗ Limited technology keywords",
       if hasTopicalKeywords then "✓ Educational/informational keywords"
        else "✗ No educational keywords"] }

def salesyWords : List String :=
  ["buy now", "purchase", "sale", "discount", "limited time", "act now", "special offer", "deal",
   "price", "$", "order now", "subscribe now"]

def neutralWords : List String :=
  ["according to", "research shows", "studies indicate", "experts say", "analysis reveals",
   "data suggests", "findings show", "evidence"]

/-- 5. Tone analysis (6 points). -/
def toneEval (d : ParsedDoc) : CriteriaScore :=
  let salesyCount := countIncluded d.text salesyWords
  let neutralCount := countIncluded d.text neutralWords
  { score := (if salesyCount ≤ 2 then 3 else 0) + (if 2 ≤ neutralCount then 3 else 0),
    max := 6,
    details :=
      [if salesyCount ≤ 2 then "✓ Non-promotional tone" else "✗ Overly promotional language",
       if 2 ≤ neutralCount then "✓ Objective, research-based tone"
        else "✗ Limited objective language"] }

def citationPatterns : List String :=
  ["according to", "cited in", "reference", "source", "study", "research", "published in",
   "journal"]

def statsPatterns : List String :=
  ["%", "percent", "statistics", "data shows", "survey", "study found"]

def academicSignals : List String :=
  ["university", "institute", "research center", "laboratory", "academic", "study", "paper",
   "journal"]

def factCheckingSignals : List String :=
  ["fact", "verified", "evidence-based", "proven", "confirmed"]

/-- 6. Credibility analysis (15 points). -/
def credibilityEval (d : ParsedDoc) : CriteriaScore :=
  let citationCount := countIncluded d.text citationPatterns
  let statsCount := countIncluded d.text statsPatterns
  let academicCount := countIncluded d.text academicSignals
  let factCheckCount := countIncluded d.text factCheckingSignals
  { score :=
      (if 3 ≤ citationCount then 4 else if 1 ≤ citationCount then 2 else 0) +
        (if 3 ≤ statsCount then 4 else if 1 ≤ statsCount then 2 else 0) +
        (if 2 ≤ academicCount then 4 else if 1 ≤ academicCount then 2 else 0) +
        (if 2 ≤ factCheckCount then 3 else 0),
    max := 15,
    details :=
      [if 3 ≤ citationCount then "✓ Multiple references to external sources"
        else if 1 ≤ citationCount then "✓ Some references to external sources"
        else "✗ No references to external sources",
       if 3 ≤ statsCount then "✓ Contains statistics and data"
        else if 1 ≤ statsCount then "✓ Some statistics or data"
        else "✗ No statistics or data",
       if 2 ≤ academicCount then "✓ Strong academic/institutional signals"
        else if 1 ≤ academicCount then "✓ Some academic/institutional signals"
        else "✗ No academic/institutional signals",
       if 2 ≤ factCheckCount then "✓ Contains fact-checking signals"
        else "✗ No fact-checking signals"] }

def transitionWords : List String :=
  ["however", "therefore", "furthermore", "moreover", "consequently", "additionally",
   "in addition", "for example", "for instance", "in conclusion"]

def passiveVoiceMarkers : List String :=
  [" is ", " are ", " was ", " were ", " be ", " been ", " by "]

/-- 7. Readability analysis (15 points). When `sentenceCount = 0` the JS average
sentence length is NaN (0 words) or Infinity (only punctuation-and-space words),
so both the in-range test and the `< 10` test are false and the final else branch
awards 1; likewise when `wordCount = 0` the JS active-voice ratio is NaN, both
`>` tests are false and no points are awarded. -/
def readabilityEval (d : ParsedDoc) : CriteriaScore :=
  let readabilityScore := calculateReadability d.plainText
  let wordCount := countWords d.plainText
  let sentenceCount := (sentencesOf d.plainText).length
  let avgSentenceLength : ℚ := (wordCount : ℚ) / (sentenceCount : ℚ)
  let transitionCount := countIncluded d.text transitionWords
  let passiveVoiceCount := countIncluded d.text passiveVoiceMarkers
  let activeVoice : ℚ := 1 - (passiveVoiceCount : ℚ) / ((wordCount : ℚ) / 10)
  { score :=
      (if 60 ≤ readabilityScore ∧ readabilityScore ≤ 70 then 6
        else if 50 ≤ readabilityScore ∧ readabilityScore < 60 then 4
        else if 70 < readabilityScore then 3
        else 1) +
        (if sentenceCount = 0 then 1
          else if 10 ≤ avgSentenceLength ∧ avgSentenceLength ≤ 20 then 3
          else 1) +
        (if 3 ≤ transitionCount then 3 else if 1 ≤ transitionCount then 1 else 0) +
        (if wordCount = 0 then 0
          else if 7 / 10 < activeVoice then 3
          else if 1 / 2 < activeVoice then 2
          else 0),
    max := 15,
    details :=
      [if 60 ≤ readabilityScore ∧ readabilityScore ≤ 70 then
          "✓ Optimal readability level (8th-9th grade)"
        else if 50 ≤ readabilityScore ∧ readabilityScore < 60 then
          "✓ Good readability level (10th-12th grade)"
        else if 70 < readabilityScore then "✓ Very simple readability (may lack depth)"
        else "✗ Complex readability (college level or higher)",
       if sentenceCount = 0 then "✗ Sentences may be too long"
        else if 10 ≤ avgSentenceLength ∧ avgSentenceLength ≤ 20 then
          "✓ Optimal average sentence length"
        else if avgSentenceLength < 10 then "✗ Sentences may be too short"
        else "✗ Sentences may be too long",
       if 3 ≤ transitionCount then "✓ Good use of transition words"
        else if 1 ≤ transitionCount then "✓ Some transition words present"
        else "✗ No transition words found",
       if wordCount = 0 then "✗ Excessive passive voice"
        else if 7 / 10 < activeVoice then "✓ Primarily active voice"
        else if 1 / 2 < activeVoice then "✓ Mix of active and passive voice"
        else "✗ Excessive passive voice"] }

def recencySignals : List String :=
  ["recent", "latest", "new", "update", "current", "today", "this month", "this year"]

/-- recencyCount text: how many recency signals occur in the text. -/
def recencyCount (text : String) : Nat :=
  countIncluded text recencySignals

/-- The divisor of the months-elapsed computation: 1000 * 60 * 60 * 24 * 30 ms. -/
def msPerMonth : Int := 2592000000

/-- The step function mapping elapsed milliseconds since publication to a date
score; `deltaMs ≤ k * msPerMonth` is exactly `monthsAgo <= k` for the JS
division by the positive constant. -/
def dateStepScore (deltaMs : Int) : Nat :=
  if deltaMs ≤ msPerMonth then 10
  else if deltaMs ≤ 3 * msPerMonth then 8
  else if deltaMs ≤ 6 * msPerMonth then 6
  else if deltaMs ≤ 12 * msPerMonth then 4
  else if deltaMs ≤ 24 * msPerMonth then 2
  else 0

/-- The (dateScore, dateFound) pair before the recency bonus. `parseDate` models
`new Date(s).getTime()`, with `none` standing for an Invalid Date: its NaN time
makes every `monthsAgo <= k` comparison false, so the step chain falls through
to 0, while `dateFound` is already true and the year fallback is skipped. -/
def freshnessBase (parseDate : String → Option Int) (clock : Clock) (d : ParsedDoc) :
    Nat × Bool :=
  match d.publishDate with
  | some s =>
    (match parseDate s with
     | some t => dateStepScore (clock.nowMs - t)
     | none => 0, true)
  | none =>
    if strIncludes d.text (toString clock.currentYear) then (6, true)
    else if strIncludes d.text (toString (clock.currentYear - 1)) then (4, true)
    else (0, false)

/-- 8. Freshness analysis (10 points). -/
def freshnessEval (parseDate : String → Option Int) (clock : Clock) (d : ParsedDoc) :
    CriteriaScore :=
  let base := freshnessBase parseDate clock d
  let dateScore := if 2 ≤ recencyCount d.text then min 10 (base.1 + 2) else base.1
  { score := dateScore,
    max := 10,
    details :=
      (if 2 ≤ recencyCount d.text then ["✓ Contains recency signals"] else []) ++
        [if base.2 then
            (if 8 ≤ dateScore then "✓ Very recent content (within 3 months)"
              else if 4 ≤ dateScore then "✓ Relatively recent content (within a year)"
              else "✗ Content may be outdated")
          else "✗ No clear publication date found"] }

def comprehensiveSignals : List String :=
  ["complete", "comprehensive", "in-depth", "detailed", "thorough", "ultimate guide",
   "everything you need to know"]

def perspectiveSignals : List String :=
  ["on the other hand", "alternatively", "however", "in contrast", "different perspective",
   "another view", "pros and cons", "advantages and disadvantages"]

def exampleSignals : List String :=
  ["example", "case study", "instance", "for instance", "such as", "e.g."]

/-- 9. Comprehensiveness analysis (10 points). -/
def comprehensivenessEval (d : ParsedDoc) : CriteriaScore :=
  let wordCount := countWords d.plainText
  let comprehensiveCount := countIncluded d.text comprehensiveSignals
  let perspectiveCount := countIncluded d.text perspectiveSignals
  let exampleCount := countIncluded d.text exampleSignals
  { score :=
      (if 1500 ≤ wordCount then 4
        else if 800 ≤ wordCount then 3
        else if 400 ≤ wordCount then 2
        else 0) +
        (if 1 ≤ comprehensiveCount then 2 else 0) + (if 2 ≤ perspectiveCount then 2 else 0) +
        (if 2 ≤ exampleCount then 2 else 0),
    max := 10,
    details :=
      [if 1500 ≤ wordCount then "✓ In-depth content (1500+ words)"
        else if 800 ≤ wordCount then "✓ Substantial content (800+ words)"
        else if 400 ≤ wordCount then "✓ Moderate content length (400+ words)"
        else "✗ Content may be too brief"] ++
        (if 1 ≤ comprehensiveCount then ["✓ Claims to be comprehensive"] else []) ++
        [if 2 ≤ perspectiveCount then "✓ Presents multiple perspectives"
          else "✗ May present limited perspective",
         if 2 ≤ exampleCount then "✓ Includes examples or case studies"
          else "✗ Limited examples or illustrations"] }

/-- The route's external-link count: anchors matching `a[href^='http']` whose
href does NOT contain the requested URL as a substring (`!href.includes(url)`). -/
def externalLinksCount (url : String) (d : ParsedDoc) : Nat :=
  (((d.anchorHrefs.filter (fun h => strStarts h "http")).filter
      (fun h => !strIncludes h url))).length

def formalCitationPatterns : List String :=
  ["et al", "cited in", "reference", "bibliography", "works cited", "references", "citation"]

/-- Number of occurrences of the quote character in the text. -/
def quoteCharCount (text : String) : Nat :=
  (text.data.filter (fun c => c == '\"')).length

/-- 10. Citations analysis (10 points). The JS `quoteCount` is the quote-character
count divided by 2 as a float; since both thresholds are integers, comparing the
floored Nat division against them is equivalent. -/
def citationsEval (url : String) (d : ParsedDoc) : CriteriaScore :=
  let externalLinks := externalLinksCount url d
  let formalCitationCount := countIncluded d.text formalCitationPatterns
  let quoteCount := quoteCharCount d.text / 2
  { score :=
      (if 5 ≤ externalLinks then 4 else if 2 ≤ externalLinks then 2 else 0) +
        (if 2 ≤ formalCitationCount then 3 else 0) +
        (if 3 ≤ quoteCount then 3 else if 1 ≤ quoteCount then 1 else 0),
    max := 10,
    details :=
      [if 5 ≤ externalLinks then "✓ Multiple external links (5+)"
        else if 2 ≤ externalLinks then "✓ Some external links"
        else "✗ Few or no external links",
       if 2 ≤ formalCitationCount then "✓ Formal citations present" else "✗ No formal citations",
       if 3 ≤ quoteCount then "✓ Multiple quoted sources"
        else if 1 ≤ quoteCount then "✓ Some quoted content"
        else "✗ No quoted sources"] }

/-- The ten named criterion results (the `criteria` field of the source's
`AnalysisResult` interface). -/
structure Criteria where
  «structure» : CriteriaScore
  author : CriteriaScore
  metadata : CriteriaScore
  keywords : CriteriaScore
  tone : CriteriaScore
  credibility : CriteriaScore
  readability : CriteriaScore
  freshness : CriteriaScore
  comprehensiveness : CriteriaScore
  citations : CriteriaScore

/-- Source interface `AnalysisResult`. -/
structure AnalysisResult where
  url : String
  totalScore : Nat
  maxScore : Nat
  percentage : ℚ
  criteria : Criteria
  recommendations : List String
  researchInsights : List String

def advStructure : String :=
  "Add more headings, lists, and a table of contents to improve content structure"

def advAuthor : String :=
  "Include clear author attribution, credentials, and expertise signals"

def advMetadata : String :=
  "Improve meta description, add publication date, and implement schema markup"

def advKeywords : String :=
  "Include more relevant AI and technology keywords"

def advTone : String :=
  "Use more neutral, research-based language and reduce promotional content"

def advCredibility : String :=
  "Add references to research, statistics, and academic sources to boost credibility"

def advReadability : String :=
  "Improve readability by using shorter sentences, active voice, and transition words"

def advFreshness : String :=
  "Update content with current information and clearly display publication date"

def advComprehensiveness : String :=
  "Expand content depth with more examples, multiple perspectives, and detailed coverage"

def advCitations : String :=
  "Add more external links, formal citations, and quoted sources"

/-- The recommendation list: one fixed advisory string per criterion whose score
is strictly below its fixed threshold, in source order. -/
def recommendationsOf (c : Criteria) : List String :=
  (if c.«structure».score < 7 then [advStructure] else []) ++
    (if c.author.score < 5 then [advAuthor] else []) ++
    (if c.metadata.score < 5 then [advMetadata] else []) ++
    (if c.keywords.score < 5 then [advKeywords] else []) ++
    (if c.tone.score < 4 then [advTone] else []) ++
    (if c.credibility.score < 8 then [advCredibility] else []) ++
    (if c.readability.score < 8 then [advReadability] else []) ++
    (if c.freshness.score < 5 then [advFreshness] else []) ++
    (if c.comprehensiveness.score < 5 then [advComprehensiveness] else []) ++
    (if c.citations.score < 5 then [advCitations] else [])

/-- The static research-insight strings, identical across all results. -/
def researchInsightsList : List String :=
  ["AI systems like ChatGPT prefer to cite content with clear authorship and expertise signals",
   "Content with factual statements, statistics, and research citations is more likely to be referenced",
   "Well-structured content with clear headings and organization is prioritized by AI systems",
   "Recent and up-to-date information is more likely to be cited than outdated content",
   "Content from domains with established authority receives preferential treatment in AI citations",
   "Educational and informational content is cited more frequently than promotional material",
   "Content with neutral, objective tone is preferred over opinionated or biased writing"]

/-- `Object.values(analysis.criteria).reduce((sum, criteria) => sum + criteria.score, 0)`. -/
def totalScoreOf (c : Criteria) : Nat :=
  [c.«structure», c.author, c.metadata, c.keywords, c.tone, c.credibility, c.readability,
    c.freshness, c.comprehensiveness, c.citations].foldl (fun s cr => s + cr.score) 0

/-- Round x / y (for y > 0) to the nearest integer, ties to even. -/
def divNearestEven (x y : ℕ) : ℕ :=
  let q := x / y
  let r := x % y
  if 2 * r < y then q else if y < 2 * r then q + 1 else if q % 2 = 0 then q else q + 1

/-- Double the numerator until a / b reaches 2^52, counting the doublings
(fuel-bounded; the fuel covers the whole binary64 exponent range). -/
def upLoop : Nat → ℕ → ℕ → ℕ × ℕ
  | 0, a, _ => (a, 0)
  | fuel + 1, a, b =>
    if a < 4503599627370496 * b then
      let r := upLoop fuel (2 * a) b
      (r.1, r.2 + 1)
    else (a, 0)

/-- Double the denominator until a / b drops below 2^53, counting the doublings. -/
def downLoop : Nat → ℕ → ℕ → ℕ × ℕ
  | 0, _, b => (b, 0)
  | fuel + 1, a, b =>
    if 9007199254740992 * b ≤ a then
      let r := downLoop fuel a (2 * b)
      (r.1, r.2 + 1)
    else (b, 0)

/-- The nearest IEEE-754 binary64 value to a / b (for a ≥ 0, b > 0, in the
normal range), returned as a pair (m, j) whose value is m / 2^j: the fraction
is scaled by a power of two into the 53-bit significand range [2^52, 2^53)
and rounded to the nearest integer, ties to even. -/
def roundPair (a b : ℕ) : ℕ × ℤ :=
  if a = 0 then (0, 0)
  else
    let u := upLoop 1200 a b
    let dn := downLoop 1200 u.1 b
    (divNearestEven u.1 dn.1, (u.2 : ℤ) - (dn.2 : ℤ))

/-- The JS double computation `(t / 100) * 100` for a natural t, as a
mantissa/exponent pair: t and 100 are exactly representable doubles, the
quotient t / 100 is rounded once, and the product of that double with the
exact 100 is rounded again. -/
def jsPercentPair (t : ℕ) : ℕ × ℤ :=
  let p1 := roundPair t 100
  if 0 ≤ p1.2 then roundPair (100 * p1.1) (2 ^ p1.2.toNat)
  else roundPair (100 * p1.1 * 2 ^ (-p1.2).toNat) 1

/-- The value of `jsPercentPair` as a rational. -/
def jsPercent (t : ℕ) : ℚ :=
  let p := jsPercentPair t
  if 0 ≤ p.2 then (p.1 : ℚ) / ((2 : ℚ) ^ p.2.toNat) else (p.1 : ℚ) * ((2 : ℚ) ^ (-p.2).toNat)

/-- The whole scoring pipeline run on one fetched-and-parsed document:
builds the ten criterion results, the total, the percentage
(the binary64 evaluation of `(totalScore / maxScore) * 100` with
`maxScore = 100`), the recommendations and the static insights. -/
def analyze (parseDate : String → Option Int) (clock : Clock) (url : String) (d : ParsedDoc) :
    AnalysisResult :=
  let c : Criteria :=
    { «structure» := structureEval d
      author := authorEval d
      metadata := metadataEval d
      keywords := keywordsEval d
      tone := toneEval d
      credibility := credibilityEval d
      readability := readabilityEval d
      freshness := freshnessEval parseDate clock d
      comprehensiveness := comprehensivenessEval d
      citations := citationsEval url d }
  { url := url
    totalScore := totalScoreOf c
    maxScore := 100
    percentage := jsPercent (totalScoreOf c)
    criteria := c
    recommendations := recommendationsOf c
    researchInsights := researchInsightsList }

/-- The request body as the route sees it: `malformed` when `request.json()`
throws (empty or non-JSON body) or the parsed value is not an object;
otherwise the object's `url` field as a string when present. -/
inductive ReqBody where
  | malformed : ReqBody
  | object : Option String → ReqBody

/-- A response body: either an error message or a full analysis. -/
inductive RespBody where
  | errorMsg : String → RespBody
  | result : AnalysisResult → RespBody

/-- An HTTP response as produced by the route. -/
structure HttpResponse where
  status : Nat
  body : RespBody

def fetchFailureMsg : String :=
  "Failed to analyze the webpage. Please check the URL and try again."

/-- The route handler. `isValidURL` models the `new URL(url)` constructor check;
`fetchDoc` models the axios fetch followed by the cheerio parse, with `none`
standing for any thrown failure (timeout, unreachable host, non-success status),
which the catch-all turns into a 500. A body on which `request.json()` (or the
destructuring) throws lands in the same catch-all. -/
def POST (isValidURL : String → Bool) (fetchDoc : String → Option ParsedDoc)
    (parseDate : String → Option Int) (clock : Clock) (req : ReqBody) : HttpResponse :=
  match req with
  | .malformed => ⟨500, .errorMsg fetchFailureMsg⟩
  | .object none => ⟨400, .errorMsg "URL is required"⟩
  | .object (some url) =>
    if url = "" then ⟨400, .errorMsg "URL is required"⟩
    else if !isValidURL url then ⟨400, .errorMsg "Invalid URL format"⟩
    else
      match fetchDoc url with
      | none => ⟨500, .errorMsg fetchFailureMsg⟩
      | some d => ⟨200, .result (analyze parseDate clock url d)⟩

/-- Modelled from the spec: the characters after the first `://` marker, if any. -/
def afterSchemeMarker : List Char → Option (List Char)
  | [] => none
  | c :: t =>
    if charsStart [':', '/', '/'] (c :: t) then some (t.drop 2) else afterSchemeMarker t

/-- Modelled from the spec: the host component of a URL (the part after `://`
up to the next `/`, `:`, `?` or `#`), used only to state the spec's
"outbound links whose host differs from the origin" counting rule, which the
source does not implement. -/
def specHostOf (u : String) : String :=
  match afterSchemeMarker u.data with
  | none => ""
  | some r => String.mk (r.takeWhile (fun c => !(c == '/' || c == ':' || c == '?' || c == '#')))

/-- Modelled from the spec: the number of outbound links (`a[href^='http']`)
whose host differs from the analyzed page's host. -/
def specCrossHostCount (url : String) (d : ParsedDoc) : Nat :=
  ((d.anchorHrefs.filter (fun h => strStarts h "http")).filter
      (fun h => specHostOf h ≠ specHostOf url)).length

/-- A document with every signal absent; the base for the concrete test
documents below. -/
def emptyDoc : ParsedDoc :=
  { headings := 0, lists := 0, paragraphs := 0, rawLength := 0, text := "", html := "",
    plainText := "", title := "", description := none, publishDate := none, authorFound := false,
    anchorHrefs := [] }

/-- A document whose text is just the literal year 2025, with no structured date. -/
def docYear : ParsedDoc := { emptyDoc with text := "2025" }

/-- A document with a structured publish date that does not parse as a date. -/
def docBadDate : ParsedDoc := { emptyDoc with publishDate := some "not-a-date" }

/-- Six outbound links to host b.com, each carrying the analyzed URL inside a
query parameter, so each href contains the URL as a substring. -/
def docTrickyLinks : ParsedDoc :=
  { emptyDoc with
    anchorHrefs :=
      ["http://b.com/x?ref=http://a.com/page", "http://b.com/x?ref=http://a.com/page",
       "http://b.com/x?ref=http://a.com/page", "http://b.com/x?ref=http://a.com/page",
       "http://b.com/x?ref=http://a.com/page", "http://b.com/x?ref=http://a.com/page"] }

/-- Six outbound links that do not contain the analyzed URL as a substring. -/
def docSixLinks : ParsedDoc :=
  { emptyDoc with
    anchorHrefs :=
      ["http://b1.com/a", "http://b2.com/a", "http://b3.com/a", "http://b4.com/a",
       "http://b5.com/a", "http://b6.com/a"] }

/-- A 51-character meta description. -/
def desc51 : String := String.mk (List.replicate 51 'a')

/-- A 50-character meta description. -/
def desc50 : String := String.mk (List.replicate 50 'a')

def doc51 : ParsedDoc := { emptyDoc with description := some desc51 }

def doc50 : ParsedDoc := { emptyDoc with description := some desc50 }

/-- A page with an empty body text and five paragraph elements, nothing else:
structure 2 + tone 3 + readability 2 reaches the total score 7. -/
def docSeven : ParsedDoc := { emptyDoc with paragraphs := 5 }

theorem structureEval_score_le (d : ParsedDoc) : (structureEval d).score ≤ 10 := by
  simp only [structureEval]
  split_ifs <;> decide

theorem authorEval_score_le (d : ParsedDoc) : (authorEval d).score ≤ 8 := by
  simp only [authorEval]
  split_ifs <;> decide

theorem metadataEval_score_le (d : ParsedDoc) : (metadataEval d).score ≤ 8 := by
  simp only [metadataEval]
  split_ifs <;> decide

theorem keywordsEval_score_le (d : ParsedDoc) : (keywordsEval d).score ≤ 8 := by
  simp only [keywordsEval]
  split_ifs <;> decide

theorem toneEval_score_le (d : ParsedDoc) : (toneEval d).score ≤ 6 := by
  simp only [toneEval]
  split_ifs <;> decide

theorem credibilityEval_score_le (d : ParsedDoc) : (credibilityEval d).score ≤ 15 := by
  simp only [credibilityEval]
  split_ifs <;> decide

theorem readabilityEval_score_le (d : ParsedDoc) : (readabilityEval d).score ≤ 15 := by
  simp only [readabilityEval]
  split_ifs <;> decide

theorem dateStepScore_le (x : Int) : dateStepScore x ≤ 10 := by
  simp only [dateStepScore]
  split_ifs <;> decide

theorem freshnessBase_fst_le (pd : String → Option Int) (cl : Clock) (d : ParsedDoc) :
    (freshnessBase pd cl d).1 ≤ 10 := by
  cases hp : d.publishDate with
  | none =>
    simp only [freshnessBase, hp]
    split_ifs <;> decide
  | some s =>
    cases hs : pd s with
    | none =>
      simp only [freshnessBase, hp, hs]
      decide
    | some t =>
      simp only [freshnessBase, hp, hs]
      exact dateStepScore_le (cl.nowMs - t)

theorem freshnessEval_score_le (pd : String → Option Int) (cl : Clock) (d : ParsedDoc) :
    (freshnessEval pd cl d).score ≤ 10 := by
  simp only [freshnessEval]
  split_ifs
  · exact Nat.min_le_left 10 _
  · exact freshnessBase_fst_le pd cl d

theorem comprehensivenessEval_score_le (d : ParsedDoc) : (comprehensivenessEval d).score ≤ 10 := by
  simp only [comprehensivenessEval]
  split_ifs <;> decide

theorem citationsEval_score_le (url : String) (d : ParsedDoc) :
    (citationsEval url d).score ≤ 10 := by
  simp only [citationsEval]
  split_ifs <;> decide

theorem mem_ite_singleton {c : Prop} [Decidable c] {s t : String} :
    (s ∈ if c then [t] else ([] : List String)) ↔ c ∧ s = t := by
  by_cases h : c <;> simp [h]

/-- C1: in every analysis of a fetched document, each of the ten criterion
results has a score between 0 and its fixed compile-time maximum
(structure 10, author 8, metadata 8, keywords 8, tone 6, credibility 15,
readability 15, freshness 10, comprehensiveness 10, citations 10). -/
theorem criterion_scores_within_bounds (pd : String → Option Int) (cl : Clock) (url : String)
    (d : ParsedDoc) :
    ((analyze pd cl url d).criteria.«structure».score ≤
        (analyze pd cl url d).criteria.«structure».max ∧
      (analyze pd cl url d).criteria.«structure».max = 10) ∧
    ((analyze pd cl url d).criteria.author.score ≤ (analyze pd cl url d).criteria.author.max ∧
      (analyze pd cl url d).criteria.author.max = 8) ∧
    ((analyze pd cl url d).criteria.metadata.score ≤ (analyze pd cl url d).criteria.metadata.max ∧
      (analyze pd cl url d).criteria.metadata.max = 8) ∧
    ((analyze pd cl url d).criteria.keywords.score ≤ (analyze pd cl url d).criteria.keywords.max ∧
      (analyze pd cl url d).criteria.keywords.max = 8) ∧
    ((analyze pd cl url d).criteria.tone.score ≤ (analyze pd cl url d).criteria.tone.max ∧
      (analyze pd cl url d).criteria.tone.max = 6) ∧
    ((analyze pd cl url d).criteria.credibility.score ≤
        (analyze pd cl url d).criteria.credibility.max ∧
      (analyze pd cl url d).criteria.credibility.max = 15) ∧
    ((analyze pd cl url d).criteria.readability.score ≤
        (analyze pd cl url d).criteria.readability.max ∧
      (analyze pd cl url d).criteria.readability.max = 15) ∧
    ((analyze pd cl url d).criteria.freshness.score ≤
        (analyze pd cl url d).criteria.freshness.max ∧
      (analyze pd cl url d).criteria.freshness.max = 10) ∧
    ((analyze pd cl url d).criteria.comprehensiveness.score ≤
        (analyze pd cl url d).criteria.comprehensiveness.max ∧
      (analyze pd cl url d).criteria.comprehensiveness.max = 10) ∧
    ((analyze pd cl url d).criteria.citations.score ≤
        (analyze pd cl url d).criteria.citations.max ∧
      (analyze pd cl url d).criteria.citations.max = 10) :=
  ⟨⟨structureEval_score_le d, rfl⟩, ⟨authorEval_score_le d, rfl⟩, ⟨metadataEval_score_le d, rfl⟩,
    ⟨keywordsEval_score_le d, rfl⟩, ⟨toneEval_score_le d, rfl⟩,
    ⟨credibilityEval_score_le d, rfl⟩, ⟨readabilityEval_score_le d, rfl⟩,
    ⟨freshnessEval_score_le pd cl d, rfl⟩, ⟨comprehensivenessEval_score_le d, rfl⟩,
    ⟨citationsEval_score_le url d, rfl⟩⟩

theorem jsPercent_eq_nat_iff (t : ℕ) (hj : 0 ≤ (jsPercentPair t).2) :
    jsPercent t = (t : ℚ) ↔ (jsPercentPair t).1 = t * 2 ^ (jsPercentPair t).2.toNat := by
  rw [jsPercent, if_pos hj, div_eq_iff (by positivity)]
  exact_mod_cast Iff.rfl

set_option maxRecDepth 100000 in
theorem jsPercentPair_exponent_nonneg : ∀ t : Nat, t ≤ 100 → 0 ≤ (jsPercentPair t).2 := by
  decide

set_option maxRecDepth 100000 in
theorem jsPercentPair_exact_iff :
    ∀ t : Nat, t ≤ 100 →
      ((jsPercentPair t).1 = t * 2 ^ (jsPercentPair t).2.toNat ↔
        t ∉ ([7, 14, 28, 29, 55, 56, 57, 58] : List Nat)) := by
  decide

/-- C2 counterexample: a page with empty body text and five paragraph elements
reaches totalScore 7, and the program's percentage is the binary64 value of
(7 / 100) * 100, which is 7 + 2^-50 (printed 7.000000000000001) — not 7 and
not totalScore / 100 * 100 exactly. -/
theorem percentage_rounding_counterexample :
    (analyze (fun _ => none) ⟨0, 2025⟩ "http://a.com/" docSeven).totalScore = 7 ∧
      (analyze (fun _ => none) ⟨0, 2025⟩ "http://a.com/" docSeven).percentage =
        7881299347898369 / 1125899906842624 ∧
      (analyze (fun _ => none) ⟨0, 2025⟩ "http://a.com/" docSeven).percentage ≠
        ((analyze (fun _ => none) ⟨0, 2025⟩ "http://a.com/" docSeven).totalScore : ℚ) ∧
      (analyze (fun _ => none) ⟨0, 2025⟩ "http://a.com/" docSeven).percentage ≠
        ((analyze (fun _ => none) ⟨0, 2025⟩ "http://a.com/" docSeven).totalScore : ℚ) / 100 *
          100 := by
  have ht : (analyze (fun _ => none) ⟨0, 2025⟩ "http://a.com/" docSeven).totalScore = 7 := by
    decide
  have hp : (analyze (fun _ => none) ⟨0, 2025⟩ "http://a.com/" docSeven).percentage =
      jsPercent (analyze (fun _ => none) ⟨0, 2025⟩ "http://a.com/" docSeven).totalScore := rfl
  rw [ht] at hp
  have hpair : jsPercentPair 7 = (7881299347898369, 50) := by decide
  have hval : jsPercent 7 = 7881299347898369 / 1125899906842624 := by
    rw [jsPercent, hpair]
    simp only [show ((50 : ℤ)).toNat = 50 from rfl]
    norm_num
  refine ⟨ht, ?_, ?_, ?_⟩
  · rw [hp, hval]
  · rw [hp, hval, ht]
    norm_num
  · rw [hp, hval, ht]
    norm_num

/-- C2 (amended): the returned total score is the sum of the ten criterion
scores, the maximum score is the fixed 100 (also the sum of the ten
per-criterion maxima), the total is always within [0, 100], and the percentage
is the IEEE-754 binary64 evaluation of totalScore / 100 * 100 — which equals
totalScore exactly for every total in [0, 100] except 7, 14, 28, 29, 55, 56,
57 and 58, where the two rounding steps make it differ. -/
theorem total_score_aggregation (pd : String → Option Int) (cl : Clock) (url : String)
    (d : ParsedDoc) :
    (analyze pd cl url d).totalScore =
        (analyze pd cl url d).criteria.«structure».score +
          (analyze pd cl url d).criteria.author.score +
          (analyze pd cl url d).criteria.metadata.score +
          (analyze pd cl url d).criteria.keywords.score +
          (analyze pd cl url d).criteria.tone.score +
          (analyze pd cl url d).criteria.credibility.score +
          (analyze pd cl url d).criteria.readability.score +
          (analyze pd cl url d).criteria.freshness.score +
          (analyze pd cl url d).criteria.comprehensiveness.score +
          (analyze pd cl url d).criteria.citations.score ∧
      (analyze pd cl url d).maxScore = 100 ∧
      (analyze pd cl url d).criteria.«structure».max + (analyze pd cl url d).criteria.author.max +
          (analyze pd cl url d).criteria.metadata.max +
          (analyze pd cl url d).criteria.keywords.max + (analyze pd cl url d).criteria.tone.max +
          (analyze pd cl url d).criteria.credibility.max +
          (analyze pd cl url d).criteria.readability.max +
          (analyze pd cl url d).criteria.freshness.max +
          (analyze pd cl url d).criteria.comprehensiveness.max +
          (analyze pd cl url d).criteria.citations.max = 100 ∧
      (analyze pd cl url d).totalScore ≤ 100 ∧
      (analyze pd cl url d).percentage = jsPercent (analyze pd cl url d).totalScore ∧
      (∀ t : Nat, t ≤ 100 →
        (jsPercent t = (t : ℚ) ↔ t ∉ ([7, 14, 28, 29, 55, 56, 57, 58] : List Nat))) := by
  have hsum : (analyze pd cl url d).totalScore =
      (structureEval d).score + (authorEval d).score + (metadataEval d).score +
        (keywordsEval d).score + (toneEval d).score + (credibilityEval d).score +
        (readabilityEval d).score + (freshnessEval pd cl d).score +
        (comprehensivenessEval d).score + (citationsEval url d).score := by
    simp only [analyze, totalScoreOf, List.foldl_cons, List.foldl_nil]
    omega
  have hle : (analyze pd cl url d).totalScore ≤ 100 := by
    rw [hsum]
    have h1 := structureEval_score_le d
    have h2 := authorEval_score_le d
    have h3 := metadataEval_score_le d
    have h4 := keywordsEval_score_le d
    have h5 := toneEval_score_le d
    have h6 := credibilityEval_score_le d
    have h7 := readabilityEval_score_le d
    have h8 := freshnessEval_score_le pd cl d
    have h9 := comprehensivenessEval_score_le d
    have h10 := citationsEval_score_le url d
    omega
  refine ⟨hsum, rfl, rfl, hle, rfl, fun t ht => ?_⟩
  rw [jsPercent_eq_nat_iff t (jsPercentPair_exponent_nonneg t ht)]
  exact jsPercentPair_exact_iff t ht

/-- C2 witness: the aggregation theorem applied to the empty document bounds
the total by 100, and at the concrete total 50 the percentage is exact. -/
theorem total_score_aggregation_witness :
    (analyze (fun _ => none) ⟨0, 2025⟩ "http://a.com/" emptyDoc).totalScore ≤ 100 ∧
      (jsPercent 50 = (50 : ℚ) ↔ (50 : Nat) ∉ ([7, 14, 28, 29, 55, 56, 57, 58] : List Nat)) :=
  ⟨(total_score_aggregation (fun _ => none) ⟨0, 2025⟩ "http://a.com/" emptyDoc).2.2.2.1,
   (total_score_aggregation (fun _ => none) ⟨0, 2025⟩ "http://a.com/" emptyDoc).2.2.2.2.2 50
     (by decide)⟩

/-- C3 counterexample: for the page at http://a.com/page and six outbound links
to host b.com whose hrefs embed the analyzed URL in a query parameter, all six
links are cross-host, there are no formal-citation phrases and no quote
characters, yet the citations score is 0, not the 4 the claim requires: the
code filters by `!href.includes(url)`, not by host comparison. -/
theorem citations_not_crosshost_counterexample :
    specHostOf "http://a.com/page" = "a.com" ∧
      specHostOf "http://b.com/x?ref=http://a.com/page" = "b.com" ∧
      specCrossHostCount "http://a.com/page" docTrickyLinks = 6 ∧
      countIncluded docTrickyLinks.text formalCitationPatterns = 0 ∧
      quoteCharCount docTrickyLinks.text = 0 ∧
      (citationsEval "http://a.com/page" docTrickyLinks).score = 0 ∧
      (citationsEval "http://a.com/page" docTrickyLinks).score ≠ 4 := by
  decide

/-- C3 (amended): the citations evaluator's link sub-score counts anchors whose
href starts with "http" and does not contain the analyzed URL as a substring
(the code's approximation of cross-host linking), awarding +4 at ≥5 such links
and +2 at ≥2; with no formal-citation phrases and no quote characters, 5 or
more such links yield a citations score of exactly 4 out of 10, and 2 to 4 such
links yield exactly 2. -/
theorem citations_link_subscore (url : String) (d : ParsedDoc) :
    (5 ≤ externalLinksCount url d → countIncluded d.text formalCitationPatterns = 0 →
        quoteCharCount d.text = 0 → (citationsEval url d).score = 4) ∧
      (2 ≤ externalLinksCount url d → externalLinksCount url d < 5 →
        countIncluded d.text formalCitationPatterns = 0 → quoteCharCount d.text = 0 →
        (citationsEval url d).score = 2) := by
  constructor
  · intro h1 h2 h3
    simp [citationsEval, h1, h2, h3]
  · intro h1 h1' h2 h3
    have h5 : ¬5 ≤ externalLinksCount url d := by omega
    simp [citationsEval, h5, h1, h2, h3]

/-- C3 witness: six links to distinct hosts, none containing the analyzed URL,
with no citation phrases and no quotes, score exactly 4. -/
theorem citations_link_subscore_witness :
    (citationsEval "http://a.com/" docSixLinks).score = 4 :=
  (citations_link_subscore "http://a.com/" docSixLinks).1 (by decide) (by decide) (by decide)

/-- C4 counterexample: the freshness evaluator reads the clock. The same
document (text "2025", no structured date) analyzed when the current year is
2025 scores 6 on freshness, but analyzed when the current year is 2027 scores
0 — two analyses of the same ParsedDocument at two times differ. -/
theorem freshness_depends_on_time_counterexample :
    (analyze (fun _ => none) ⟨0, 2025⟩ "http://a.com/" docYear).criteria.freshness.score = 6 ∧
      (analyze (fun _ => none) ⟨0, 2027⟩ "http://a.com/" docYear).criteria.freshness.score = 0 ∧
      (analyze (fun _ => none) ⟨0, 2025⟩ "http://a.com/" docYear).criteria.freshness.score ≠
        (analyze (fun _ => none) ⟨0, 2027⟩ "http://a.com/" docYear).criteria.freshness.score := by
  refine ⟨by decide, by decide, by decide⟩

/-- C4 (amended): each criterion evaluator other than freshness is a pure
function of the ParsedDocument (plus, for citations, the requested URL) alone:
two analyses of the same document at any two times, with any two date parsers,
produce identical scores and identical finding strings for those nine criteria.
The freshness evaluator additionally depends on the evaluation time, so only
it can differ between the two runs. -/
theorem nonfreshness_evaluators_time_independent (pd₁ pd₂ : String → Option Int)
    (c₁ c₂ : Clock) (url : String) (d : ParsedDoc) :
    (analyze pd₁ c₁ url d).criteria.«structure» = (analyze pd₂ c₂ url d).criteria.«structure» ∧
      (analyze pd₁ c₁ url d).criteria.author = (analyze pd₂ c₂ url d).criteria.author ∧
      (analyze pd₁ c₁ url d).criteria.metadata = (analyze pd₂ c₂ url d).criteria.metadata ∧
      (analyze pd₁ c₁ url d).criteria.keywords = (analyze pd₂ c₂ url d).criteria.keywords ∧
      (analyze pd₁ c₁ url d).criteria.tone = (analyze pd₂ c₂ url d).criteria.tone ∧
      (analyze pd₁ c₁ url d).criteria.credibility = (analyze pd₂ c₂ url d).criteria.credibility ∧
      (analyze pd₁ c₁ url d).criteria.readability = (analyze pd₂ c₂ url d).criteria.readability ∧
      (analyze pd₁ c₁ url d).criteria.comprehensiveness =
        (analyze pd₂ c₂ url d).criteria.comprehensiveness ∧
      (analyze pd₁ c₁ url d).criteria.citations = (analyze pd₂ c₂ url d).criteria.citations :=
  ⟨rfl, rfl, rfl, rfl, rfl, rfl, rfl, rfl, rfl⟩

/-- C5 counterexample: a request whose body cannot be parsed as JSON (the empty
body) makes `request.json()` throw, landing in the catch-all: the response
status is 500, not the 400 the claim requires. -/
theorem empty_body_returns_500_counterexample :
    (POST (fun _ => true) (fun _ => none) (fun _ => none) ⟨0, 2025⟩ .malformed).status = 500 ∧
      (POST (fun _ => true) (fun _ => none) (fun _ => none) ⟨0, 2025⟩ .malformed).status ≠ 400 := by
  exact ⟨rfl, by decide⟩

/-- C5 (amended): for every request whose parsed JSON body has no url value, an
empty url, or a url rejected by the URL constructor, the handler returns 400
with an error string, and no fetch is attempted (the response is the same for
every fetch behavior); a request whose body fails JSON parsing — such as an
empty body — instead returns 500 from the catch-all, also without fetching. -/
theorem invalid_url_yields_400_before_fetch (v : String → Bool)
    (f₁ f₂ : String → Option ParsedDoc) (pd : String → Option Int) (cl : Clock)
    (u : Option String)
    (h : u = none ∨ ∃ s, u = some s ∧ (s = "" ∨ v s = false)) :
    (POST v f₁ pd cl (.object u)).status = 400 ∧
      (∃ msg, (POST v f₁ pd cl (.object u)).body = .errorMsg msg) ∧
      POST v f₁ pd cl (.object u) = POST v f₂ pd cl (.object u) := by
  rcases h with rfl | ⟨s, rfl, hs⟩
  · exact ⟨rfl, ⟨"URL is required", rfl⟩, rfl⟩
  · by_cases hse : s = ""
    · subst hse
      exact ⟨rfl, ⟨"URL is required", rfl⟩, rfl⟩
    · rcases hs with rfl | hv
      · exact absurd rfl hse
      · refine ⟨?_, ⟨"Invalid URL format", ?_⟩, ?_⟩ <;> simp [POST, hse, hv]

/-- C5 witness: a nonsensical URL string is rejected with a 400. -/
theorem invalid_url_yields_400_before_fetch_witness :
    (POST (fun _ => false) (fun _ => none) (fun _ => none) ⟨0, 2025⟩
        (.object (some "nonsense"))).status = 400 :=
  (invalid_url_yields_400_before_fetch (fun _ => false) (fun _ => none) (fun _ => none)
    (fun _ => none) ⟨0, 2025⟩ (some "nonsense") (Or.inr ⟨"nonsense", rfl, Or.inr rfl⟩)).1

/-- C6: for each of the ten criteria, the recommendations list contains that
criterion's fixed advisory string if and only if the criterion's score is
strictly below its fixed threshold (structure < 7, author < 5, metadata < 5,
keywords < 5, tone < 4, credibility < 8, readability < 8, freshness < 5,
comprehensiveness < 5, citations < 5). -/
theorem recommendations_iff_thresholds (pd : String → Option Int) (cl : Clock) (url : String)
    (d : ParsedDoc) :
    (advStructure ∈ (analyze pd cl url d).recommendations ↔
        (analyze pd cl url d).criteria.«structure».score < 7) ∧
      (advAuthor ∈ (analyze pd cl url d).recommendations ↔
        (analyze pd cl url d).criteria.author.score < 5) ∧
      (advMetadata ∈ (analyze pd cl url d).recommendations ↔
        (analyze pd cl url d).criteria.metadata.score < 5) ∧
      (advKeywords ∈ (analyze pd cl url d).recommendations ↔
        (analyze pd cl url d).criteria.keywords.score < 5) ∧
      (advTone ∈ (analyze pd cl url d).recommendations ↔
        (analyze pd cl url d).criteria.tone.score < 4) ∧
      (advCredibility ∈ (analyze pd cl url d).recommendations ↔
        (analyze pd cl url d).criteria.credibility.score < 8) ∧
      (advReadability ∈ (analyze pd cl url d).recommendations ↔
        (analyze pd cl url d).criteria.readability.score < 8) ∧
      (advFreshness ∈ (analyze pd cl url d).recommendations ↔
        (analyze pd cl url d).criteria.freshness.score < 5) ∧
      (advComprehensiveness ∈ (analyze pd cl url d).recommendations ↔
        (analyze pd cl url d).criteria.comprehensiveness.score < 5) ∧
      (advCitations ∈ (analyze pd cl url d).recommendations ↔
        (analyze pd cl url d).criteria.citations.score < 5) := by
  refine ⟨?_, ?_, ?_, ?_, ?_, ?_, ?_, ?_, ?_, ?_⟩ <;>
    · simp only [analyze, recommendationsOf, List.mem_append, mem_ite_singleton]
      simp +decide

/-- C7: with no structured publish-date signal, the freshness base score is 6
when the lowercase text contains the current calendar year as a literal
substring, 4 when it contains only the previous year, and 0 otherwise;
independently, when at least 2 recency-signal words are present, 2 more points
are added with the result capped at 10 (and no bonus is added otherwise). -/
theorem freshness_fallback_years (pd : String → Option Int) (cl : Clock) (url : String)
    (d : ParsedDoc) (h : d.publishDate = none) :
    (strIncludes d.text (toString cl.currentYear) = true → (freshnessBase pd cl d).1 = 6) ∧
      (strIncludes d.text (toString cl.currentYear) = false →
        strIncludes d.text (toString (cl.currentYear - 1)) = true →
        (freshnessBase pd cl d).1 = 4) ∧
      (strIncludes d.text (toString cl.currentYear) = false →
        strIncludes d.text (toString (cl.currentYear - 1)) = false →
        (freshnessBase pd cl d).1 = 0) ∧
      (2 ≤ recencyCount d.text →
        (analyze pd cl url d).criteria.freshness.score = min 10 ((freshnessBase pd cl d).1 + 2)) ∧
      (recencyCount d.text < 2 →
        (analyze pd cl url d).criteria.freshness.score = (freshnessBase pd cl d).1) := by
  refine ⟨fun h1 => ?_, fun h1 h2 => ?_, fun h1 h2 => ?_, fun hr => ?_, fun hr => ?_⟩
  · simp [freshnessBase, h, h1]
  · simp [freshnessBase, h, h1, h2]
  · simp [freshnessBase, h, h1, h2]
  · simp [analyze, freshnessEval, hr]
  · have hr' : ¬2 ≤ recencyCount d.text := by omega
    simp [analyze, freshnessEval, hr']

/-- C7 witness: a document whose text is the literal current year "2025",
with no structured date and no recency signals, scores 6 on freshness. -/
theorem freshness_fallback_years_witness :
    (analyze (fun _ => none) ⟨0, 2025⟩ "http://a.com/" docYear).criteria.freshness.score = 6 := by
  have h := freshness_fallback_years (fun _ => none) ⟨0, 2025⟩ "http://a.com/" docYear rfl
  have h6 := h.1 (by decide)
  have hs := h.2.2.2.2 (by decide)
  rw [hs, h6]

/-- C8: the metadata evaluator's +3 description bonus is awarded exactly when
the meta description is present (truthy) and strictly longer than 50
characters: the score exceeds the description-free score by 3 in that case and
equals it otherwise; in particular a 51-character description earns the bonus
and a 50-character one does not. -/
theorem metadata_description_threshold (d : ParsedDoc) :
    ((metadataEval d).score =
        (metadataEval { d with description := none }).score +
          (if d.description.getD "" ≠ "" ∧ 50 < (d.description.getD "").length then 3 else 0)) ∧
      ((d.description.getD "").length = 51 →
        (metadataEval d).score = (metadataEval { d with description := none }).score + 3) ∧
      ((d.description.getD "").length = 50 →
        (metadataEval d).score = (metadataEval { d with description := none }).score) := by
  have key : (metadataEval d).score =
      (metadataEval { d with description := none }).score +
        (if d.description.getD "" ≠ "" ∧ 50 < (d.description.getD "").length then 3 else 0) := by
    simp only [metadataEval]
    split_ifs <;> simp_all
  refine ⟨key, fun h51 => ?_, fun h50 => ?_⟩
  · rw [key, if_pos]
    refine ⟨fun e => ?_, by omega⟩
    rw [e] at h51
    exact absurd h51 (by decide)
  · rw [key, if_neg]
    · omega
    · rintro ⟨-, hlen⟩
      omega

/-- C8 witness: a 51-character description earns the +3 bonus and a
50-character description does not. -/
theorem metadata_description_threshold_witness :
    (metadataEval doc51).score = (metadataEval { doc51 with description := none }).score + 3 ∧
      (metadataEval doc50).score = (metadataEval { doc50 with description := none }).score :=
  ⟨(metadata_description_threshold doc51).2.1 (by decide),
   (metadata_description_threshold doc50).2.2 (by decide)⟩

/-- C9: when a structured publish-date signal is present but its value does not
parse as a date, the date is still treated as found: the months-elapsed step
contributes 0, the calendar-year fallback is never consulted (the base is
(0, true) for every text), and the freshness score is the +2 recency bonus at
most. -/
theorem freshness_invalid_date_found (pd : String → Option Int) (cl : Clock) (url : String)
    (d : ParsedDoc) (s : String) (h1 : d.publishDate = some s) (h2 : pd s = none) :
    freshnessBase pd cl d = (0, true) ∧
      (analyze pd cl url d).criteria.freshness.score =
        (if 2 ≤ recencyCount d.text then 2 else 0) ∧
      (analyze pd cl url d).criteria.freshness.score ≤ 2 := by
  have hb : freshnessBase pd cl d = (0, true) := by
    simp [freshnessBase, h1, h2]
  have hsc : (analyze pd cl url d).criteria.freshness.score =
      (if 2 ≤ recencyCount d.text then 2 else 0) := by
    simp only [analyze, freshnessEval, hb]
    split_ifs <;> decide
  refine ⟨hb, hsc, ?_⟩
  rw [hsc]
  split_ifs <;> decide

/-- C9 witness: a document whose only date signal is the unparseable string
"not-a-date" (and whose text has no recency signals) scores at most 2. -/
theorem freshness_invalid_date_found_witness :
    (analyze (fun _ => none) ⟨0, 2025⟩ "http://a.com/" docBadDate).criteria.freshness.score ≤ 2 :=
  (freshness_invalid_date_found (fun _ => none) ⟨0, 2025⟩ "http://a.com/" docBadDate
    "not-a-date" rfl rfl).2.2

/-- C10: on a document whose visible body text is empty, the analysis is total
and in-bounds: calculateReadability returns 0 and the readability criterion
scores exactly 2 (1 from the complex-readability else branch plus 1 from the
sentence-length else branch, with the zero-denominator sub-checks awarding
nothing). -/
theorem empty_text_total_readability (pd : String → Option Int) (cl : Clock) (url : String)
    (d : ParsedDoc) (h1 : d.plainText = "") (h2 : d.text = "") :
    calculateReadability d.plainText = 0 ∧
      (analyze pd cl url d).criteria.readability.score = 2 := by
  constructor
  · rw [h1]
    decide
  · simp only [analyze, readabilityEval, h1, h2]
    decide

/-- C10 witness: the analysis of the all-empty document gives readability 2. -/
theorem empty_text_total_readability_witness :
    calculateReadability emptyDoc.plainText = 0 ∧
      (analyze (fun _ => none) ⟨0, 2025⟩ "http://a.com/" emptyDoc).criteria.readability.score =
        2 :=
  empty_text_total_readability (fun _ => none) ⟨0, 2025⟩ "http://a.com/" emptyDoc rfl rfl
